import Mathlib

/-!
Verification development for the RelativeAddonsSystem repository.

The Python sources `RelativeAddonsSystem/libraries.py` and
`RelativeAddonsSystem/addon/__init__.py` are shallowly embedded below:
dictionaries become association lists, the `installed_libraries`
ContextVar becomes explicitly threaded state, subprocess output becomes a
string parameter, and raised exceptions become `Except` errors.

The helper module `RelativeAddonsSystem/utils.py` and the metadata and
configuration submodules are not part of the provided sources; the few
functions of theirs that the embedded code calls are modelled from the
specification and marked as such in their doc comments.
-/

/- String literal constants, used wherever the Python source uses the
corresponding literal. -/

def dotSep : String := "."

def newlineSep : String := "\n"

def eqeq : String := "=="

def star : String := "*"

def emptyStr : String := ""

def spaceSep : String := " "

def errorMarker : String := "ERROR"

def pipInstallCmd : String := "pip install "

def installErrMsg : String := "Error occurred while installing: "

def addonJsonName : String := "/addon.json"

def statusKey : String := "status"

def enabledVal : String := "enabled"

def disabledVal : String := "disabled"

def semiSep : String := ";"

def eqSep : String := "="

/-- Strip a separator token from the front of a character list, returning
the remainder when the token is a prefix of the list. -/
def stripTok : List Char → List Char → Option (List Char)
  | [], l => some l
  | _ :: _, [] => none
  | t :: ts, c :: cs => if c == t then stripTok ts cs else none

/-- Fuel-indexed splitter on a non-empty separator token `sep1 :: sepRest`,
scanning left to right; with fuel at least the list length it agrees with
Python `str.split(sep)`. -/
def splitTokFuel (sep1 : Char) (sepRest : List Char) : Nat → List Char → List (List Char)
  | _, [] => [[]]
  | 0, l => [l]
  | n + 1, c :: cs =>
    if c == sep1 then
      match stripTok sepRest cs with
      | some rest => [] :: splitTokFuel sep1 sepRest n rest
      | none =>
        match splitTokFuel sep1 sepRest n cs with
        | [] => [[c]]
        | p :: ps => (c :: p) :: ps
    else
      match splitTokFuel sep1 sepRest n cs with
      | [] => [[c]]
      | p :: ps => (c :: p) :: ps

/-- Python `s.split(sep)` for a non-empty separator (executable by kernel
reduction, unlike the library `String.splitOn`). -/
def splitStr (s sep : String) : List String :=
  match sep.data with
  | [] => [s]
  | c :: cs => (splitTokFuel c cs s.data.length s.data).map String.mk

/-- Python `str.lower()`. -/
def pyLower (s : String) : String := String.mk (s.data.map Char.toLower)

/-- Parse a decimal digit run into a number; any non-digit character, or an
empty run, is a parse failure (Python `int(s)` on the component). -/
def parseNatAux : List Char → Nat → Option Nat
  | [], acc => some acc
  | c :: cs, acc =>
    if c.isDigit then parseNatAux cs (acc * 10 + (c.toNat - 48)) else none

/-- Numeric parse of one version component. -/
def parseNatStr (s : String) : Option Nat :=
  match s.data with
  | [] => none
  | _ => parseNatAux s.data 0

/-- Python `"x" in s` substring test: splitting on the needle yields more
than one piece exactly when the needle occurs. -/
def strContains (hay needle : String) : Bool :=
  (splitStr hay needle).length != 1

/-- Python `str.splitlines()` restricted to `\n` separators: split on
newlines, with no empty final piece for a trailing newline. -/
def splitlines (s : String) : List String :=
  let parts := splitStr s newlineSep
  match parts.getLast? with
  | some lastPart => if lastPart == emptyStr then parts.dropLast else parts
  | none => parts

/-- Python `sep.join(l)`. -/
def joinWith (sep : String) : List String → String
  | [] => emptyStr
  | [x] => x
  | x :: y :: rest => x ++ sep ++ joinWith sep (y :: rest)

/-- Lookup in a Python dict modelled as an association list
(first match wins; `dinsert` keeps keys unique). -/
def dlookup : List (String × String) → String → Option String
  | [], _ => none
  | (k, v) :: rest, key => if k == key then some v else dlookup rest key

/-- Python dict assignment `d[k] = v`: replace the binding of `k` in place
if present, otherwise append. -/
def dinsert : List (String × String) → String → String → List (String × String)
  | [], k, v => [(k, v)]
  | (k0, v0) :: rest, k, v =>
    if k0 == k then (k, v) :: rest else (k0, v0) :: dinsert rest k v

/-- Error kind for malformed version strings (spec section 7). -/
inductive VersionFormatError
  | mk
deriving DecidableEq

/-- Modelled from the spec: the version parsing used by
`utils.check_version` (the `utils` module is not among the provided
sources). Per spec section 4.1, a version string is parsed into an ordered
sequence of numeric components; a malformed string is an error. -/
def parseVersion (s : String) : Option (List Nat) :=
  (splitStr s dotSep).mapM parseNatStr

/-- Right zero-padding of a component list to length `n` (spec section 4.1:
shorter sequences are zero-padded on the right for comparison). -/
def padTo (l : List Nat) (n : Nat) : List Nat :=
  l ++ List.replicate (n - l.length) 0

/-- Component-wise, left-to-right numeric comparison of two equally padded
component lists. -/
def vcmpAux : List Nat → List Nat → Ordering
  | [], _ => Ordering.eq
  | _ :: _, [] => Ordering.eq
  | a :: as, b :: bs =>
    if a < b then Ordering.lt
    else if b < a then Ordering.gt
    else vcmpAux as bs

/-- Comparison of version component sequences after zero-padding both to a
common length. -/
def vcmp (a b : List Nat) : Ordering :=
  vcmpAux (padTo a (max a.length b.length)) (padTo b (max a.length b.length))

/-- Modelled from the spec: `utils.check_version` (the `utils` module is
not among the provided sources). Per spec section 4.1
(`VersionComparator.satisfies`): `"*"` always satisfies; otherwise both
strings are parsed into numeric components and satisfaction means the
actual version is greater-than-or-equal to the constraint version under
component-wise comparison; malformed strings fail with a
`VersionFormatError`. -/
def check_version (constraint actual : String) : Except VersionFormatError Bool :=
  if constraint == star then Except.ok true
  else
    match parseVersion constraint, parseVersion actual with
    | some c, some a =>
      Except.ok (match vcmp a c with
        | Ordering.lt => false
        | _ => true)
    | _, _ => Except.error VersionFormatError.mk

/-- Modelled from the spec: `utils.version_tranform.to_library_version`
(the `utils` module is not among the provided sources). Per spec section
4.3 the emitted install action carries the exact constraint version, so
the transform is the identity. -/
def to_library_version (s : String) : String := s

/-- A declared requirement (spec section 3): a capability name and a
version constraint, `"*"` meaning any version. -/
structure Requirement where
  name : String
  version : String

/-- The install-action string built inside `install_libraries`
(libraries.py lines 34-36 and 40-42): the lower-cased requirement name,
suffixed with `==` and the transformed constraint version unless the
constraint is `"*"`. -/
def actionFor (r : Requirement) : String :=
  if r.version == star then pyLower r.name
  else pyLower r.name ++ eqeq ++ to_library_version r.version

/-- The resolver loop of `install_libraries` (libraries.py lines 32-45):
for each requirement, if its lower-cased name is absent from the inventory,
or present with a version failing `check_version`, append an install
action; a `VersionFormatError` from `check_version` aborts the loop. -/
def resolveActions : List Requirement → List (String × String) → Except VersionFormatError (List String)
  | [], _ => Except.ok []
  | r :: rs, inv =>
    match dlookup inv (pyLower r.name) with
    | none =>
      match resolveActions rs inv with
      | Except.error e => Except.error e
      | Except.ok rest => Except.ok (actionFor r :: rest)
    | some v =>
      match check_version r.version v with
      | Except.error e => Except.error e
      | Except.ok b =>
        match resolveActions rs inv with
        | Except.error e => Except.error e
        | Except.ok rest => Except.ok (if b then rest else actionFor r :: rest)

/-- Whether a requirement is satisfied by the inventory, read off from the
branch structure of `install_libraries`: its lower-cased name is bound to a
version that `check_version` accepts. -/
def satisfiedIn (inv : List (String × String)) (r : Requirement) : Bool :=
  match dlookup inv (pyLower r.name) with
  | none => false
  | some v =>
    match check_version r.version v with
    | Except.ok b => b
    | Except.error _ => false

/-- Error kind for a failed or malformed package-manager listing (spec
section 7; realized in the code as the unpacking error raised while
splitting a `pip freeze` line that is not of the `name==version` shape). -/
inductive CapabilityQueryError
  | mk
deriving DecidableEq

/-- Parse one line of `pip freeze` output (libraries.py line 23):
`name, version = lib.lower().split("==")` — the whole line is lower-cased
and must split into exactly two pieces. -/
def parseFreezeLine (line : String) : Except CapabilityQueryError (String × String) :=
  match splitStr (pyLower line) eqeq with
  | [n, v] => Except.ok (n, v)
  | _ => Except.error CapabilityQueryError.mk

/-- The parsing loop of `get_installed_libraries` (libraries.py lines
20-24): fold the freeze lines into a fresh dict; a malformed line aborts
the loop before the cache is updated. -/
def parse_freeze_lines : List String → List (String × String) → Except CapabilityQueryError (List (String × String))
  | [], acc => Except.ok acc
  | line :: rest, acc =>
    match parseFreezeLine line with
    | Except.error e => Except.error e
    | Except.ok (n, v) => parse_freeze_lines rest (dinsert acc n v)

/-- Parse a full `pip freeze` output into the installed-libraries dict. -/
def parse_freeze (pipOut : String) : Except CapabilityQueryError (List (String × String)) :=
  parse_freeze_lines (splitlines pipOut) []

/-- `get_installed_libraries` (libraries.py lines 9-28), with the
`installed_libraries` ContextVar threaded explicitly as `st` and the
`pip freeze` output supplied as `pipOut`. Returns (queried?, result,
new cache state): the manager is queried when `force` is set or the cache
is empty; on a parse failure the exception propagates before
`installed_libraries.set`, leaving the cache unchanged. -/
def get_installed_libraries (force : Bool) (pipOut : String) (st : List (String × String)) :
    Bool × Except CapabilityQueryError (List (String × String)) × List (String × String) :=
  if force || st.length == 0 then
    match parse_freeze pipOut with
    | Except.error e => (true, Except.error e, st)
    | Except.ok libs => (true, Except.ok libs, libs)
  else (false, Except.ok st, st)

/-- Errors raised by `install_libraries`: a `VersionFormatError` escaping
from `check_version`, or the `RuntimeError` raised when the installer
output contains the `ERROR` marker — the spec's `InstallationError`,
carrying the raw diagnostic. -/
inductive LibError
  | versionErr (e : VersionFormatError)
  | installErr (diag : String)
deriving DecidableEq

/-- `install_libraries` (libraries.py lines 31-54), with the cached
inventory supplied as `cache` and the installer's output as `managerOut`.
The first component is the list of package-manager command lines issued:
when the resolved action list is non-empty, a single `pip install` of the
whole batch; the second is the returned name list, or the error raised. -/
def install_libraries (reqs : List Requirement) (cache : List (String × String)) (managerOut : String) :
    List String × Except LibError (List String) :=
  match resolveActions reqs cache with
  | Except.error e => ([], Except.error (LibError.versionErr e))
  | Except.ok names =>
    if names.isEmpty then ([], Except.ok names)
    else
      ([pipInstallCmd ++ joinWith spaceSep names],
        if strContains managerOut errorMarker then
          Except.error (LibError.installErr (installErrMsg ++ managerOut))
        else Except.ok names)

/-- State-passing form of `install_libraries`: the source body contains no
`installed_libraries.set` call, so the threaded ContextVar state is
returned as it was received. -/
def install_libraries_state (reqs : List Requirement) (st : List (String × String)) (managerOut : String) :
    (List String × Except LibError (List String)) × List (String × String) :=
  (install_libraries reqs st managerOut, st)

/-- `Addon.check_requirements` (addon/__init__.py lines 123-162) with the
non-forced inventory snapshot supplied as `inv`: returns false on the
first requirement whose lower-cased name is missing or whose installed
version fails `check_version`, true when all pass; a `VersionFormatError`
propagates. The `alert` warnings are non-fatal diagnostics and do not
affect the result. -/
def check_requirements : List Requirement → List (String × String) → Except VersionFormatError Bool
  | [], _ => Except.ok true
  | r :: rs, inv =>
    match dlookup inv (pyLower r.name) with
    | none => Except.ok false
    | some v =>
      match check_version r.version v with
      | Except.error e => Except.error e
      | Except.ok b => if b then check_requirements rs inv else Except.ok false

/-- `Addon.install_requirements` (addon/__init__.py lines 164-173):
delegates to `install_libraries` with the addon's declared requirement
list. -/
def install_requirements (reqsOfMeta : List Requirement) (cache : List (String × String)) (managerOut : String) :
    List String × Except LibError (List String) :=
  install_libraries reqsOfMeta cache managerOut

def fooName : String := "foo"

def v110 : String := "1.1.0"

def v120 : String := "1.2.0"

def fooReq : Requirement := ⟨fooName, v120⟩

def invA : List (String × String) := [(fooName, v110)]

def invB : List (String × String) := [(fooName, v120)]

def fooAct : String := "foo==1.2.0"

/-- The metadata file path targeted by the status operations:
`path / "addon.json"`. -/
def addonJsonAt (path : String) : String := path ++ addonJsonName

/-- File-system operations performed by the persistence code, on a
file system modelled as a path-to-content association list. -/
inductive FileOp
  | openTrunc (p : String)
  | writeAll (p : String) (content : String)
  | renameOp (src : String) (dst : String)

/-- Whether an operation is a rename (the primitive an atomic replace
would need). -/
def isRenameOp : FileOp → Bool
  | FileOp.renameOp _ _ => true
  | _ => false

/-- Effect of one file operation: opening with mode `w` truncates the file
to empty, a completed write sets the full content, a rename moves
content onto the destination path. -/
def applyOp (fs : List (String × String)) : FileOp → List (String × String)
  | FileOp.openTrunc p => dinsert fs p emptyStr
  | FileOp.writeAll p c => dinsert fs p c
  | FileOp.renameOp src dst =>
    match dlookup fs src with
    | some c => dinsert fs dst c
    | none => fs

/-- Effect of a sequence of file operations. -/
def applyOps (fs : List (String × String)) (ops : List FileOp) : List (String × String) :=
  ops.foldl applyOp fs

/-- The write trace of `Addon.enable` / `Addon.disable`
(addon/__init__.py lines 59-60 and 65-66):
`with open(self.path / "addon.json", "w", ...) as f: json.dump(meta, f)` —
a truncating open of `path/addon.json` followed by a write of the
serialized descriptor, with no temporary file and no rename. -/
def enable_ops (path : String) (content : String) : List FileOp :=
  [FileOp.openTrunc (addonJsonAt path), FileOp.writeAll (addonJsonAt path) content]

/-- Modelled from the spec: JSON serialization mechanics
(`json.dump`) are out of scope per spec section 1; the descriptor is
serialized in full by some injective rendering of its key/value pairs. -/
def serializeMeta : List (String × String) → String
  | [] => emptyStr
  | (k, v) :: rest => k ++ eqSep ++ v ++ semiSep ++ serializeMeta rest

/-- Modelled from the spec: JSON parsing (`json.load`) is out of scope per
spec section 1; the descriptor document is read back as key/value pairs. -/
def deserializeMeta (s : String) : List (String × String) :=
  (splitStr s semiSep).filterMap (fun kv =>
    match splitStr kv eqSep with
    | [k, v] => some (k, v)
    | _ => none)

/-- The in-memory `Addon` fields needed by the persistence operations:
`self.path`, the metadata path resolved at construction, and the
descriptor mapping held by `self._meta`. -/
structure AddonState where
  path : String
  metaPath : String
  meta : List (String × String)

/-- `Addon.enable` (addon/__init__.py lines 56-60): set
`meta["status"] = "enabled"`, then rewrite `path/addon.json` with the
serialized descriptor. Returns the updated addon and file system. -/
def Addon.enable (a : AddonState) (fs : List (String × String)) :
    AddonState × List (String × String) :=
  let m2 := dinsert a.meta statusKey enabledVal
  (⟨a.path, a.metaPath, m2⟩, applyOps fs (enable_ops a.path (serializeMeta m2)))

/-- `Addon.disable` (addon/__init__.py lines 62-66): set
`meta["status"] = "disabled"`, then rewrite `path/addon.json` with the
serialized descriptor. -/
def Addon.disable (a : AddonState) (fs : List (String × String)) :
    AddonState × List (String × String) :=
  let m2 := dinsert a.meta statusKey disabledVal
  (⟨a.path, a.metaPath, m2⟩, applyOps fs (enable_ops a.path (serializeMeta m2)))

/-- Exceptions observable from the `Addon` metadata code paths. -/
inductive PyExc
  | metadataError
  | fileNotFoundError
deriving DecidableEq

/-- The `meta_path` argument of `Addon.__init__`: omitted (`None`), a
`Path`, or a value of some other type. -/
inductive MetaPathArg
  | noneArg
  | pathArg (p : String)
  | nonPathArg

/-- The metadata-location resolution of `Addon.__init__`
(addon/__init__.py lines 18-28): `None` defaults to `path/addon.json`;
a non-`Path` value raises `MetadataError`. -/
def addonInitMetaPath (path : String) : MetaPathArg → Except PyExc String
  | MetaPathArg.noneArg => Except.ok (addonJsonAt path)
  | MetaPathArg.pathArg p => Except.ok p
  | MetaPathArg.nonPathArg => Except.error PyExc.metadataError

/-- Python truthiness of a `pathlib.Path` value: `Path` objects are always
truthy, so `not self.path / "addon.json"` is always false. -/
def pathTruthy (_ : String) : Bool := true

/-- The `Addon.meta` property (addon/__init__.py lines 38-51) when
`self._meta` may be unloaded (`metaLoaded = none`; per spec section 4.7
metadata is read lazily on first access): the guard
`if not self.path / "addon.json"` tests the truthiness of a `Path`, and
`open` on a missing file raises `FileNotFoundError`. -/
def metaAccess (path : String) (metaLoaded : Option (List (String × String)))
    (fs : List (String × String)) : Except PyExc (List (String × String)) :=
  match metaLoaded with
  | some m => Except.ok m
  | none =>
    if !(pathTruthy (addonJsonAt path)) then Except.error PyExc.metadataError
    else
      match dlookup fs (addonJsonAt path) with
      | none => Except.error PyExc.fileNotFoundError
      | some content => Except.ok (deserializeMeta content)

/- Concrete data for the scenario theorems and witnesses. -/

def upName : String := "Foo"

def upReq : Requirement := ⟨upName, star⟩

def fooLowerAct : String := "foo"

def pipOkOut : String := "Successfully installed foo-1.2.0"

def badOut : String := "pip is not recognized"

def fooFreeze : String := "foo==1.1.0"

def pathA : String := "A"

def metaPathB : String := "B/meta.json"

def oldContent : String := "old descriptor"

def newContent : String := "new descriptor"

def nameKey : String := "name"

def aSample : AddonState := ⟨pathA, metaPathB, [(nameKey, fooName)]⟩

def fsSample : List (String × String) := [(metaPathB, oldContent)]

/-- The action string the claim text predicts for a requirement: the
requirement's name as written, suffixed with `==` and the exact constraint
version unless the constraint is `"*"`. -/
def actionSpecLiteral (r : Requirement) : String :=
  if r.version == star then r.name else r.name ++ eqeq ++ r.version

/-- Looking up the key just inserted finds the inserted value. -/
theorem dlookup_dinsert_self (fs : List (String × String)) (k v : String) :
    dlookup (dinsert fs k v) k = some v := by
  induction fs with
  | nil => simp [dinsert, dlookup]
  | cons hd tl ih =>
    obtain ⟨k0, v0⟩ := hd
    cases h : k0 == k with
    | true => simp [dinsert, h, dlookup]
    | false => simp [dinsert, h, dlookup, ih]

/-- Inserting under one key leaves lookups of any other key unchanged. -/
theorem dlookup_dinsert_ne (fs : List (String × String)) (k v key : String)
    (h : key ≠ k) : dlookup (dinsert fs k v) key = dlookup fs key := by
  have hk : (k == key) = false := by
    cases hh : k == key with
    | false => rfl
    | true => exact absurd (eq_of_beq hh).symm h
  induction fs with
  | nil => simp [dinsert, dlookup, hk]
  | cons hd tl ih =>
    obtain ⟨k0, v0⟩ := hd
    cases h0 : k0 == k with
    | true =>
      have hk0 : (k0 == key) = false := by rw [eq_of_beq h0]; exact hk
      simp [dinsert, h0, dlookup, hk, hk0]
    | false =>
      cases h1 : k0 == key with
      | true => simp [dinsert, h0, dlookup, h1]
      | false => simp [dinsert, h0, dlookup, h1, ih]

/-- Claim C1 (counterexample): for the requirement named `"Foo"` with
constraint `"*"` and an empty inventory, the claim predicts one install
action carrying the requirement's name, i.e. `["Foo"]`; the resolver in
`install_libraries` instead emits the lower-cased name `["foo"]`. -/
theorem resolver_action_not_literal_name :
    resolveActions [upReq] [] ≠ Except.ok (List.map actionSpecLiteral [upReq]) := by
  intro h
  have h0 : resolveActions [upReq] [] = Except.ok [fooLowerAct] := rfl
  rw [h0] at h
  injection h with h1
  exact absurd h1 (by decide)

/-- Claim C1 (amended): whenever the resolver loop of `install_libraries`
completes without a version-format error, the emitted install actions are
exactly, in input order, one action per requirement whose lower-cased name
is absent from the inventory or whose installed version fails the version
check; each action carries the requirement's lower-cased name, suffixed
with `==` and the exact constraint version unless the constraint is
`"*"`. -/
theorem resolver_emits_unsatisfied (reqs : List Requirement) (inv : List (String × String))
    (acts : List String) (h : resolveActions reqs inv = Except.ok acts) :
    acts = (reqs.filter (fun r => !(satisfiedIn inv r))).map actionFor := by
  induction reqs generalizing acts with
  | nil =>
    simp only [resolveActions] at h
    injection h with h1
    rw [← h1]
    simp
  | cons r rs ih =>
    cases hlk : dlookup inv (pyLower r.name) with
    | none =>
      cases hrec : resolveActions rs inv with
      | error e =>
        simp only [resolveActions, hlk, hrec] at h
        exact Except.noConfusion h
      | ok rest =>
        simp only [resolveActions, hlk, hrec] at h
        injection h with h1
        rw [← h1]
        have hs : satisfiedIn inv r = false := by simp [satisfiedIn, hlk]
        simp [List.filter_cons, hs, ih rest hrec]
    | some v =>
      cases hcv : check_version r.version v with
      | error e =>
        simp only [resolveActions, hlk, hcv] at h
        exact Except.noConfusion h
      | ok b =>
        cases hrec : resolveActions rs inv with
        | error e =>
          simp only [resolveActions, hlk, hcv, hrec] at h
          exact Except.noConfusion h
        | ok rest =>
          simp only [resolveActions, hlk, hcv, hrec] at h
          injection h with h1
          have hs : satisfiedIn inv r = b := by simp [satisfiedIn, hlk, hcv]
          cases b with
          | true =>
            rw [← h1]
            simp [List.filter_cons, hs, ih rest hrec]
          | false =>
            rw [← h1]
            simp [List.filter_cons, hs, ih rest hrec]

/-- Witness for the amended claim C1 at a concrete input: for the
requirement `foo == 1.2.0` over the inventory `{foo: 1.1.0}` the resolver
emits exactly the one action `foo==1.2.0`. -/
theorem resolver_emits_unsatisfied_witness :
    [fooAct] = (List.filter (fun r => !(satisfiedIn invA r)) [fooReq]).map actionFor :=
  resolver_emits_unsatisfied [fooReq] invA [fooAct] rfl

/-- Claim C2: for an addon declaring the single requirement
`{name: "foo", version: "1.2.0"}`: with inventory `{foo: "1.1.0"}`,
`check_requirements` returns false and `install_requirements` returns
`["foo==1.2.0"]`; with inventory `{foo: "1.2.0"}`, `check_requirements`
returns true and `install_requirements` returns `[]`. -/
theorem scenario_check_and_install :
    check_requirements [fooReq] invA = Except.ok false ∧
    (install_requirements [fooReq] invA pipOkOut).2 = Except.ok [fooAct] ∧
    check_requirements [fooReq] invB = Except.ok true ∧
    (install_requirements [fooReq] invB pipOkOut).2 = Except.ok [] :=
  ⟨rfl, rfl, rfl, rfl⟩

/-- Claim C3 (counterexample): `enable` on an addon whose descriptor file
holds `"old descriptor"` first truncates `path/addon.json`; a failure
after the truncating open but before the dump leaves the file empty, not
at its pre-call content. -/
theorem save_midway_failure_changes_file :
    dlookup (applyOps [(addonJsonAt pathA, oldContent)]
        (List.take 1 (enable_ops pathA newContent))) (addonJsonAt pathA) = some emptyStr ∧
    dlookup [(addonJsonAt pathA, oldContent)] (addonJsonAt pathA) = some oldContent ∧
    emptyStr ≠ oldContent :=
  ⟨rfl, rfl, by decide⟩

/-- Claim C3 (amended): persisting the descriptor in `enable` / `disable`
is a bare truncate-and-write of `path/addon.json` — a truncating open
followed by a full-file write of the serialized descriptor, with no
temporary file and no rename — so a completed save replaces the full file
content, but a failure after the truncating open leaves the file empty
rather than at its pre-call content. -/
theorem save_truncate_write (p c : String) (fs : List (String × String)) :
    applyOps fs (enable_ops p c) =
      dinsert (dinsert fs (addonJsonAt p) emptyStr) (addonJsonAt p) c ∧
    dlookup (applyOps fs (List.take 1 (enable_ops p c))) (addonJsonAt p) = some emptyStr ∧
    (enable_ops p c).all (fun op => !(isRenameOp op)) = true := by
  refine ⟨rfl, ?_, rfl⟩
  have h0 : applyOps fs (List.take 1 (enable_ops p c)) =
      dinsert fs (addonJsonAt p) emptyStr := rfl
  rw [h0]
  exact dlookup_dinsert_self fs (addonJsonAt p) emptyStr

/-- Claim C4: a non-empty resolved batch issues exactly one package-manager
invocation carrying the full batch; without the `ERROR` marker in the
manager output the requested names are returned, and with it the operation
fails with the installation error carrying the raw diagnostic (and the
single recorded invocation shows no rollback command is issued). -/
theorem install_batch_once (reqs : List Requirement) (cache : List (String × String))
    (manOut : String) (names : List String)
    (h : resolveActions reqs cache = Except.ok names) (hn : names ≠ []) :
    (install_libraries reqs cache manOut).1 = [pipInstallCmd ++ joinWith spaceSep names] ∧
    (strContains manOut errorMarker = false →
      (install_libraries reqs cache manOut).2 = Except.ok names) ∧
    (strContains manOut errorMarker = true →
      (install_libraries reqs cache manOut).2 =
        Except.error (LibError.installErr (installErrMsg ++ manOut))) := by
  have hni : names.isEmpty = false := by
    cases names with
    | nil => exact absurd rfl hn
    | cons a l => rfl
  cases hE : strContains manOut errorMarker <;>
    simp [install_libraries, h, hni, hE]

/-- Witness for claim C4 at a concrete input: installing `foo==1.2.0` over
the inventory `{foo: 1.1.0}` with a successful installer output. -/
theorem install_batch_once_witness :
    (install_libraries [fooReq] invA pipOkOut).1 =
      [pipInstallCmd ++ joinWith spaceSep [fooAct]] ∧
    (strContains pipOkOut errorMarker = false →
      (install_libraries [fooReq] invA pipOkOut).2 = Except.ok [fooAct]) ∧
    (strContains pipOkOut errorMarker = true →
      (install_libraries [fooReq] invA pipOkOut).2 =
        Except.error (LibError.installErr (installErrMsg ++ pipOkOut))) :=
  install_batch_once [fooReq] invA pipOkOut [fooAct] rfl (by decide)

/-- Claim C5 (counterexample): when the package manager reports zero
installed libraries (empty `pip freeze` output), the first non-forced call
caches the empty mapping, and the second consecutive non-forced call
queries the manager again — contradicting the claim that the second call
does not re-query (the returned mappings are still identical). -/
theorem second_call_requeries_on_empty :
    (get_installed_libraries false emptyStr []).1 = true ∧
    (get_installed_libraries false emptyStr
      (get_installed_libraries false emptyStr []).2.2).1 = true ∧
    (get_installed_libraries false emptyStr
      (get_installed_libraries false emptyStr []).2.2).2.1 =
      (get_installed_libraries false emptyStr []).2.1 :=
  ⟨rfl, rfl, rfl⟩

/-- Claim C5 (amended): two consecutive non-forced calls to
`get_installed_libraries` against the same manager output return identical
mappings, and the second call does not re-query the package manager
provided the mapping returned by the first call is non-empty. -/
theorem cache_stability (pipOut : String) (st st1 : List (String × String)) (q : Bool)
    (m : List (String × String))
    (h : get_installed_libraries false pipOut st = (q, Except.ok m, st1)) :
    (get_installed_libraries false pipOut st1).2.1 = Except.ok m ∧
    (m ≠ [] → (get_installed_libraries false pipOut st1).1 = false) := by
  cases hL : st.length == 0 with
  | false =>
    have h0 : get_installed_libraries false pipOut st = (false, Except.ok st, st) := by
      simp [get_installed_libraries, hL]
    rw [h0] at h
    injection h with h1 hrest
    injection hrest with h2 h3
    injection h2 with hm
    rw [← h3, ← hm]
    simp [get_installed_libraries, hL]
  | true =>
    have h0 : get_installed_libraries false pipOut st =
        (match parse_freeze pipOut with
          | Except.error e => (true, Except.error e, st)
          | Except.ok libs => (true, Except.ok libs, libs)) := by
      simp [get_installed_libraries, hL]
    rw [h0] at h
    cases hp : parse_freeze pipOut with
    | error e =>
      rw [hp] at h
      injection h with h1 hrest
      injection hrest with h2 h3
      exact Except.noConfusion h2
    | ok libs =>
      rw [hp] at h
      injection h with h1 hrest
      injection hrest with h2 h3
      injection h2 with hm
      rw [← h3, ← hm]
      cases hL2 : libs.length == 0 with
      | true =>
        have hnil : libs = [] := by
          cases libs with
          | nil => rfl
          | cons a l => simp at hL2
        constructor
        · simp [get_installed_libraries, hL2, hp]
        · intro hm2
          exact absurd hnil hm2
      | false =>
        constructor
        · simp [get_installed_libraries, hL2]
        · intro hm2
          simp [get_installed_libraries, hL2]

/-- Witness for the amended claim C5 at a concrete input: after a first
non-forced call that caches `{foo: 1.1.0}` from the freeze output, the
second non-forced call returns the same mapping without querying. -/
theorem cache_stability_witness :
    (get_installed_libraries false fooFreeze [(fooName, v110)]).2.1 =
      Except.ok [(fooName, v110)] ∧
    ([(fooName, v110)] ≠ ([] : List (String × String)) →
      (get_installed_libraries false fooFreeze [(fooName, v110)]).1 = false) :=
  cache_stability fooFreeze [] [(fooName, v110)] true [(fooName, v110)] rfl

/-- Claim C6: when the query path runs (forced, or empty cache) and the
manager output is malformed, `get_installed_libraries` fails with the
capability-query error and the previously cached snapshot is left
intact. -/
theorem query_failure_preserves_cache (force : Bool) (pipOut : String)
    (st : List (String × String)) (e : CapabilityQueryError)
    (h : parse_freeze pipOut = Except.error e)
    (hq : (force || st.length == 0) = true) :
    get_installed_libraries force pipOut st = (true, Except.error e, st) := by
  simp [get_installed_libraries, hq, h]

/-- Witness for claim C6 at a concrete input: a forced refresh meeting
malformed output (`pip is not recognized`) errors out and the cached
`{foo: 1.1.0}` snapshot is untouched. -/
theorem query_failure_witness :
    get_installed_libraries true badOut [(fooName, v110)] =
      (true, Except.error CapabilityQueryError.mk, [(fooName, v110)]) :=
  query_failure_preserves_cache true badOut [(fooName, v110)] CapabilityQueryError.mk rfl rfl

/-- Claim C7: constructing an `Addon` from a non-`Path` metadata argument
raises `MetadataError`, but with the metadata file missing the first
metadata access raises `FileNotFoundError` instead of the claimed
`MetadataError`: the guard `if not self.path / "addon.json"` tests the
truthiness of a `Path` object, which is always true, so its
`MetadataError` branch is unreachable and the subsequent `open` fails. -/
theorem meta_missing_raises_file_not_found :
    addonInitMetaPath pathA MetaPathArg.nonPathArg = Except.error PyExc.metadataError ∧
    metaAccess pathA none [] = Except.error PyExc.fileNotFoundError ∧
    PyExc.fileNotFoundError ≠ PyExc.metadataError :=
  ⟨rfl, rfl, by decide⟩

/-- Claim C8: executing an install batch leaves the threaded
installed-libraries cache state exactly as it was received —
`install_libraries` contains no write to the `installed_libraries`
ContextVar, so the cache is neither refreshed nor invalidated. -/
theorem install_preserves_cache (reqs : List Requirement)
    (st : List (String × String)) (managerOut : String) :
    (install_libraries_state reqs st managerOut).2 = st := rfl

/-- Claim C9: for an addon constructed with an explicit metadata path
different from `path/addon.json`, `enable` and `disable` write the
serialized descriptor to `path/addon.json` and leave the file at the
supplied metadata path unchanged. -/
theorem status_writes_target_addon_json (a : AddonState) (fs : List (String × String))
    (h : a.metaPath ≠ addonJsonAt a.path) :
    dlookup (Addon.enable a fs).2 a.metaPath = dlookup fs a.metaPath ∧
    dlookup (Addon.enable a fs).2 (addonJsonAt a.path) =
      some (serializeMeta (dinsert a.meta statusKey enabledVal)) ∧
    dlookup (Addon.disable a fs).2 a.metaPath = dlookup fs a.metaPath ∧
    dlookup (Addon.disable a fs).2 (addonJsonAt a.path) =
      some (serializeMeta (dinsert a.meta statusKey disabledVal)) := by
  have he : (Addon.enable a fs).2 =
      dinsert (dinsert fs (addonJsonAt a.path) emptyStr) (addonJsonAt a.path)
        (serializeMeta (dinsert a.meta statusKey enabledVal)) := rfl
  have hd : (Addon.disable a fs).2 =
      dinsert (dinsert fs (addonJsonAt a.path) emptyStr) (addonJsonAt a.path)
        (serializeMeta (dinsert a.meta statusKey disabledVal)) := rfl
  refine ⟨?_, ?_, ?_, ?_⟩
  · rw [he, dlookup_dinsert_ne _ _ _ _ h, dlookup_dinsert_ne _ _ _ _ h]
  · rw [he]
    exact dlookup_dinsert_self _ _ _
  · rw [hd, dlookup_dinsert_ne _ _ _ _ h, dlookup_dinsert_ne _ _ _ _ h]
  · rw [hd]
    exact dlookup_dinsert_self _ _ _

/-- Witness for claim C9 at a concrete input: an addon at path `A` with
metadata path `B/meta.json`. -/
theorem status_writes_target_witness :
    dlookup (Addon.enable aSample fsSample).2 aSample.metaPath =
      dlookup fsSample aSample.metaPath ∧
    dlookup (Addon.enable aSample fsSample).2 (addonJsonAt aSample.path) =
      some (serializeMeta (dinsert aSample.meta statusKey enabledVal)) ∧
    dlookup (Addon.disable aSample fsSample).2 aSample.metaPath =
      dlookup fsSample aSample.metaPath ∧
    dlookup (Addon.disable aSample fsSample).2 (addonJsonAt aSample.path) =
      some (serializeMeta (dinsert aSample.meta statusKey disabledVal)) :=
  status_writes_target_addon_json aSample fsSample (by decide)

/-- Claim C10: a non-forced call to `get_installed_libraries` queries the
package manager exactly when the cached mapping is empty — in particular,
after the manager reports zero installed libraries the cached mapping is
empty, so every subsequent non-forced call queries again. -/
theorem query_iff_cache_empty (pipOut : String) (st : List (String × String)) :
    (get_installed_libraries false pipOut st).1 = (st.length == 0) := by
  cases h : st.length == 0 with
  | false => simp [get_installed_libraries, h]
  | true =>
    simp only [get_installed_libraries, h, Bool.false_or, if_true]
    cases hp : parse_freeze pipOut <;> simp [hp]
